import Mathlib

/-!
Verification development for the estfor-marketplace order pipeline.

The definitions below are a shallow embedding of the repository's code:
`src/security/InputValidator.js` (input validation, rate limiting),
`src/services/MarketplaceService.js` (batch preparation, approvals,
batch submission with retry/side-fallback) and the domain models
(`UserBalance.canSell`, `TransactionResult`).

Modelling conventions:
* JS numeric inputs are modelled through their decimal string form: both
  `parseInt`/`parseFloat` convert a number argument to its string before
  parsing, so the string domain subsumes the number domain for every
  value these validators can accept.  Strings are lists of `JsChar`;
  the alphabet carries digits, sign characters, the decimal point, the
  exponent marker and an opaque `other` character (any character that is
  neither of these; `sanitizeHtml` and `trim` act as the identity on this
  alphabet, and the parsers treat `other` as a delimiter).
* Thrown JS exceptions are modelled as `Except String` with the error
  message as payload; `try`/`catch` becomes a `match` on the `Except`.
* External collaborators (balance oracle, approval primitives, the
  gas-estimate/submit/wait steps of one submission attempt) are injected
  as fields of an `Env` record, each returning `Except String` results.
* JS private instance methods are lexically resolved, so `BaseModel`'s
  constructor calls `BaseModel`'s own `#validate`/`#transform`, never the
  subclass overrides: the subclass model hooks in `models/index.js` are
  dead code, and model objects carry their raw constructor data.  The
  embedding reflects this actual behaviour.
-/

namespace Estfor

/-! ## Characters and JS numeric parsing -/

/-- One character of a JS string as seen by the numeric validators.
`other` stands for any character that is not a digit, sign, `.` or `e`. -/
inductive JsChar
  | digit (d : ℕ)
  | dot
  | expE
  | minus
  | plus
  | other
  deriving DecidableEq, Repr

abbrev JsStr := List JsChar

/-- Numeric value of a digit list (most significant first). -/
def digitsToNat (ds : List ℕ) : ℕ :=
  ds.foldl (fun acc d => 10 * acc + d) 0

/-- Take the longest prefix of digits. -/
def takeDigits : JsStr → List ℕ × JsStr
  | JsChar.digit d :: rest =>
    let (ds, r) := takeDigits rest
    (d :: ds, r)
  | s => ([], s)

/-- Consume one optional sign character; `true` means negative. -/
def parseSign : JsStr → Bool × JsStr
  | JsChar.minus :: rest => (true, rest)
  | JsChar.plus :: rest => (false, rest)
  | s => (false, s)

/-- JS `parseInt(value, 10)`: optional sign, then the longest digit
prefix; `none` models `NaN` (no digits at all).  Trailing garbage is
ignored, exactly as in JS. -/
def jsParseInt (s : JsStr) : Option ℤ :=
  let (neg, s1) := parseSign s
  let (ds, _) := takeDigits s1
  if ds.isEmpty then none
  else some (if neg then -(digitsToNat ds : ℤ) else (digitsToNat ds : ℤ))

/-- Exponent part of a JS decimal literal: consumed only when `e` is
followed by an optional sign and at least one digit. -/
def parseExp : JsStr → Option (Bool × ℕ)
  | JsChar.expE :: rest =>
    let (neg, r1) := parseSign rest
    let (ds, _) := takeDigits r1
    if ds.isEmpty then none else some (neg, digitsToNat ds)
  | _ => none

/-- JS `parseFloat(value)`: optional sign, digits, optional fraction,
optional exponent — the longest valid literal prefix; `none` models
`NaN` (no digits before or after the decimal point). -/
def jsParseFloat (s : JsStr) : Option ℚ :=
  let (neg, s1) := parseSign s
  let (ids, s2) := takeDigits s1
  let (fds, s3) :=
    match s2 with
    | JsChar.dot :: r => takeDigits r
    | _ => (([] : List ℕ), s2)
  if ids.isEmpty && fds.isEmpty then none
  else
    let mant : ℚ := (digitsToNat ids : ℚ) + (digitsToNat fds : ℚ) / (10 : ℚ) ^ fds.length
    let v : ℚ :=
      match parseExp s3 with
      | none => mant
      | some (true, e) => mant / (10 : ℚ) ^ e
      | some (false, e) => mant * (10 : ℚ) ^ e
    some (if neg then -v else v)

/-! ## InputValidator (src/security/InputValidator.js) -/

/-- Result record returned by every `#validateX` method:
`{isValid, sanitizedValue, errors}`. -/
structure VResult (α : Type) where
  isValid : Bool
  sanitizedValue : Option α
  errors : List String
  deriving DecidableEq, Repr

/-- Configuration `validation.price.min` (0.000001). -/
def priceRulesMin : ℚ := 1 / 1000000

/-- Configuration `validation.price.max`. -/
def priceRulesMax : ℚ := 1000000

/-- Configuration `validation.quantity.min`. -/
def quantityRulesMin : ℤ := 1

/-- Configuration `validation.quantity.max` (uint24 max). -/
def quantityRulesMax : ℤ := 16777215

/-- Configuration `validation.tokenId.min`. -/
def tokenIdRulesMin : ℤ := 1

/-- Configuration `validation.tokenId.max` (`Number.MAX_SAFE_INTEGER`). -/
def tokenIdRulesMax : ℤ := 9007199254740991

/-- Configuration `app.security.maxInputLength`. -/
def maxInputLength : ℕ := 1000

/-- `InputValidator.#validatePrice`: `parseFloat`, then range checks in
source order (`NaN`, `< min`, `> max`, `≤ 0`). -/
def validatePrice (value : JsStr) : VResult ℚ :=
  match jsParseFloat value with
  | none => ⟨false, none, ["Price must be a valid number"]⟩
  | some numValue =>
    if numValue < priceRulesMin then ⟨false, none, ["Price must be at least 0.000001 ETH"]⟩
    else if numValue > priceRulesMax then ⟨false, none, ["Price cannot exceed 1000000 ETH"]⟩
    else if numValue ≤ 0 then ⟨false, none, ["Price must be greater than 0"]⟩
    else ⟨true, some numValue, []⟩

/-- `InputValidator.#validateQuantity`: `parseInt(value, 10)`, range
checks, then the whole-number check `!Number.isInteger(intValue) ||
intValue !== parseFloat(value)` (the first disjunct is always false for
a non-NaN `parseInt` result, so only the `parseFloat` agreement
remains). -/
def validateQuantity (value : JsStr) : VResult ℤ :=
  match jsParseInt value with
  | none => ⟨false, none, ["Quantity must be a valid number"]⟩
  | some intValue =>
    if intValue < quantityRulesMin then ⟨false, none, ["Quantity must be at least 1"]⟩
    else if intValue > quantityRulesMax then ⟨false, none, ["Quantity cannot exceed 16777215"]⟩
    else if jsParseFloat value ≠ some (intValue : ℚ) then
      ⟨false, none, ["Quantity must be a whole number"]⟩
    else ⟨true, some intValue, []⟩

/-- `InputValidator.#validateTokenId`. -/
def validateTokenId (value : JsStr) : VResult ℤ :=
  match jsParseInt value with
  | none => ⟨false, none, ["Token ID must be a valid number"]⟩
  | some intValue =>
    if intValue < tokenIdRulesMin then ⟨false, none, ["Token ID must be at least 1"]⟩
    else if intValue > tokenIdRulesMax then ⟨false, none, ["Token ID is too large"]⟩
    else ⟨true, some intValue, []⟩

/-- `InputValidator.validateInput(value, 'quantity')`: the wrapper trims,
enforces the length cap and sanitizes HTML before dispatching to
`#validateQuantity`.  On this numeric alphabet trim and `sanitizeHtml`
are the identity, so only the length cap remains observable. -/
def validateInputQuantity (value : JsStr) : VResult ℤ :=
  if value.length > maxInputLength then
    ⟨false, none, ["Input too long. Maximum 1000 characters allowed."]⟩
  else validateQuantity value

/-! ## Rate limiter (`InputValidator.checkRateLimit`) -/

/-- Return value of `checkRateLimit`: `{allowed, resetTime?}`. -/
structure RateLimitResult where
  allowed : Bool
  resetTime : Option ℤ
  deriving DecidableEq, Repr

/-- `Math.ceil(x / 1000)` for an integer `x`. -/
def jsCeilDiv1000 (x : ℤ) : ℤ := Int.fdiv (x + 999) 1000

/-- `InputValidator.checkRateLimit(key, maxRequests, windowMs)` acting on
the stored timestamp list of one key.  Returns the result record and the
new stored list (the code writes the pruned list back into the map
before deciding, then appends `now` on admission).  When rejected the
code reads `recentRequests[0]`; the list is non-empty in every rejection
with `maxRequests ≥ 1`, and `headD 0` stands for the out-of-bounds JS
`undefined` in the degenerate `maxRequests = 0` case. -/
def checkRateLimit (stored : List ℤ) (now : ℤ) (maxRequests : ℕ) (windowMs : ℤ) :
    RateLimitResult × List ℤ :=
  let windowStart := now - windowMs
  let recentRequests := stored.filter (fun t => windowStart < t)
  if maxRequests ≤ recentRequests.length then
    (⟨false, some (jsCeilDiv1000 (recentRequests.headD 0 + windowMs - now))⟩, recentRequests)
  else
    (⟨true, none⟩, recentRequests ++ [now])

/-! ## Contract-format conversions (ethers.js) -/

/-- `true` on digits and the decimal point (the character class of the
`parseUnits` input regex `/^-?[0-9.]+$/` after the sign). -/
def isDigitOrDot : JsChar → Bool
  | JsChar.digit _ => true
  | JsChar.dot => true
  | _ => false

/-- `true` on digits only. -/
def isDigit : JsChar → Bool
  | JsChar.digit _ => true
  | _ => false

/-- Split on `.` characters, like JS `String.split(".")`. -/
def splitOnDot : JsStr → List JsStr
  | [] => [[]]
  | JsChar.dot :: rest => [] :: splitOnDot rest
  | c :: rest =>
    match splitOnDot rest with
    | [] => [[c]]
    | h :: t => (c :: h) :: t

/-- Numeric value of a digit-only string (callers guarantee digits). -/
def jsDigitsVal (l : JsStr) : ℕ :=
  l.foldl (fun acc c => match c with | JsChar.digit d => 10 * acc + d | _ => 10 * acc) 0

/-- `ethers.utils.parseEther(value)` on a string: the whole string must
match `-?[0-9.]+` with at most one `.` and at most 18 fraction digits;
the result is the value scaled by `10^18`.  `none` models the throw. -/
def parseEtherM (s : JsStr) : Option ℤ :=
  let neg := s.head? = some JsChar.minus
  let body := if neg then s.tail else s
  if body.isEmpty || !(body.all isDigitOrDot) then none
  else
    match splitOnDot body with
    | [whole] => some ((if neg then -1 else 1) * (jsDigitsVal whole : ℤ) * 10 ^ 18)
    | [whole, frac] =>
      if 18 < frac.length then none
      else some ((if neg then -1 else 1)
        * ((jsDigitsVal whole : ℤ) * 10 ^ 18 + (jsDigitsVal frac : ℤ) * 10 ^ (18 - frac.length)))
    | _ => none

/-- `ethers.BigNumber.from(value)` on a decimal string: an optional sign
followed by digits only (no fraction, no exponent, no garbage);
`none` models the throw. -/
def bigNumberFromM (s : JsStr) : Option ℤ :=
  let neg := s.head? = some JsChar.minus
  let body := if neg then s.tail else s
  if body.isEmpty || !(body.all isDigit) then none
  else some ((if neg then -1 else 1) * (jsDigitsVal body : ℤ))

/-! ## Domain models (models/index.js, with the dead-hook semantics) -/

/-- One entry of the `limitOrders` tuple array:
`{side, tokenId, price (wei), quantity}`. -/
structure ContractOrder where
  side : ℕ
  tokenId : ℤ
  price : ℤ
  quantity : ℤ
  deriving DecidableEq, Repr

/-- Result of `UserBalance.canSell`. -/
structure CanSellResult where
  canSell : Bool
  reason : Option String
  deriving DecidableEq, Repr

/-- `UserBalance.canSell(quantity)`: validates the quantity through the
real `validator.validateInput(·, 'quantity')`, then compares the
sanitized value against the raw `balance` field (a JS `>` comparison
that coerces the stored decimal string back to the same number).
The `none` branch mirrors JS `undefined > balance = false`; it is
unreachable because a valid result always carries a sanitized value. -/
def canSell (balance : ℤ) (quantity : JsStr) : CanSellResult :=
  let qv := validateInputQuantity quantity
  if qv.isValid = false then ⟨false, some "Invalid quantity"⟩
  else
    match qv.sanitizedValue with
    | some q =>
      if q > balance then
        ⟨false, some ("Insufficient balance. Have: " ++ toString balance ++ ", Need: " ++ toString q)⟩
      else ⟨true, none⟩
    | none => ⟨true, none⟩

/-- The returned `TransactionResult`.  `BaseModel` calls its own private
`#transform`, so the subclass defaulting (`error: data.error || null`,
`note: data.note || null`, …) never runs: the object carries exactly the
fields passed to the constructor, and absent fields are `none`. -/
structure TransactionResult where
  success : Bool
  txHash : Option String := none
  blockNumber : Option ℕ := none
  gasUsed : Option ℕ := none
  ordersCreated : Option ℕ := none
  error : Option String := none
  note : Option String := none
  deriving DecidableEq, Repr

/-- One order request as passed to `createBatchOrders`
(`{tokenId, side, priceInEth, amount}`; `user` is the wallet address and
plays no role in the pipeline).  `priceInEth` and `amount` are carried
in their decimal string form (`parseEther` receives
`order.price.toString()` and the validators stringify their argument
anyway, so this loses no behaviour). -/
structure OrderRequest where
  tokenId : ℤ
  side : Option String
  priceInEth : JsStr
  amount : JsStr

/-! ## MarketplaceService environment -/

/-- Receipt data of one successful submission attempt
(`tx.hash`, `receipt.blockNumber`, `receipt.gasUsed`). -/
structure Receipt where
  txHash : String
  blockNumber : ℕ
  gasUsed : ℕ
  deriving DecidableEq, Repr

/-- Return value of `#executeBatchTransaction` (plus the optional
BUY-fallback note attached by the second loop). -/
structure ExecResult where
  txHash : String
  blockNumber : ℕ
  gasUsed : ℕ
  note : Option String
  deriving DecidableEq, Repr

/-- External collaborators and ambient state of one
`createBatchOrders` call.  Every network primitive returns
`Except String` (the thrown error's message).  One `submit` call covers
the `estimateGas` / `limitOrders` / `tx.wait` sequence of a single
attempt — the retry logic treats a failure of any of the three
identically; it receives the submitted order list and the 0-based
attempt index of the enclosing retry loop. -/
structure Env where
  now : ℤ
  rateHistory : List ℤ
  isConnected : Bool
  isOnCorrectNetwork : Bool
  switchNetwork : Except String Unit
  contractReady : Bool
  initContracts : Except String Unit
  maxRetries : ℕ
  balanceOf : ℤ → Except String ℕ
  isApprovedForAll : Except String Bool
  setApprovalForAll : Except String Unit
  submit : List ContractOrder → ℕ → Except String Receipt

/-- `#getUserBalance(tokenId)`: reads the ERC-1155 balance; on any error
it returns a `UserBalance` with `balance: 0` (the whole pipeline then
sees that token as having balance 0). -/
def getUserBalance (env : Env) (tokenId : ℤ) : ℤ :=
  match env.balanceOf tokenId with
  | Except.ok b => (b : ℤ)
  | Except.error _ => 0

/-- `#validateContractLimits(order)`: `false` means one of the four
checks threw. -/
def validateContractLimits (o : ContractOrder) : Bool :=
  if o.price > 0xFFFFFFFFFFFFFFFFFF then false
  else if o.quantity > 0xFFFFFF then false
  else if o.price ≤ 0 then false
  else if o.quantity ≤ 0 then false
  else true

/-- JS `x || d` for an optional string (`none` and `""` are falsy). -/
def jsOrElse (x : Option String) (d : String) : String :=
  match x with
  | some s => if s = "" then d else s
  | none => d

/-- The `try` body of one iteration of the `#validateAndPrepareOrders`
loop; `none` means the iteration threw and the request was dropped.
`new MarketOrder` itself never throws (its subclass validation hooks are
dead code, see the header), so the order fields are the raw request
fields; the balance check, the two ethers conversions and the contract
limits are the only remaining failure points, in source order. -/
def processRequest (env : Env) (r : OrderRequest) : Option ContractOrder :=
  let side := jsOrElse r.side "sell"
  let balance := getUserBalance env r.tokenId
  let balanceCheck := canSell balance r.amount
  if balanceCheck.canSell = false then none
  else
    match parseEtherM r.priceInEth, bigNumberFromM r.amount with
    | some priceWei, some qty =>
      let contractOrder : ContractOrder :=
        ⟨if side = "sell" then 0 else 1, r.tokenId, priceWei, qty⟩
      if validateContractLimits contractOrder then some contractOrder else none
    | _, _ => none

/-- Configuration `app.transaction.maxBatchSize`. -/
def maxBatchSize : ℕ := 50

/-- `#validateAndPrepareOrders(orderRequests)`: the batch-size cap is
checked before the per-item loop; each surviving request is appended in
input order.  The second component records the tokenIds whose balance
was read (one oracle call per processed request) — empty exactly when no
per-item processing happened. -/
def validateAndPrepareOrders (env : Env) (reqs : List OrderRequest) :
    Except String (List ContractOrder) × List ℤ :=
  if reqs.length > maxBatchSize then
    (Except.error ("Too many orders. Maximum " ++ toString maxBatchSize ++ " orders per batch."), [])
  else
    (Except.ok (reqs.filterMap (processRequest env)), reqs.map (·.tokenId))

/-- `#ensureApprovals(orders)`: query `isApprovedForAll`; when not
approved issue one `setApprovalForAll` transaction and await it.  The
second component counts issued approval transactions.  Every error is
rethrown as `Failed to approve marketplace: <message>`. -/
def ensureApprovals (env : Env) : Except String Unit × ℕ :=
  match env.isApprovedForAll with
  | Except.error e => (Except.error ("Failed to approve marketplace: " ++ e), 0)
  | Except.ok true => (Except.ok (), 0)
  | Except.ok false =>
    match env.setApprovalForAll with
    | Except.ok _ => (Except.ok (), 1)
    | Except.error e => (Except.error ("Failed to approve marketplace: " ++ e), 1)

/-- One retry loop of `#executeBatchTransaction`: up to `remaining` more
attempts, submitting `payload` with the current 0-based `attempt` index;
`lastError` threads the message of the most recent failure across loops
(it enters the BUY loop holding the last SELL failure).  Returns the
loop outcome and the list of payloads submitted, one per attempt. -/
def attemptLoop (submit : List ContractOrder → ℕ → Except String Receipt)
    (payload : List ContractOrder) (note : Option String) :
    ℕ → ℕ → Option String → Except (Option String) ExecResult × List (List ContractOrder)
  | 0, _, lastError => (Except.error lastError, [])
  | remaining + 1, attempt, _lastError =>
    match submit payload attempt with
    | Except.ok rc => (Except.ok ⟨rc.txHash, rc.blockNumber, rc.gasUsed, note⟩, [payload])
    | Except.error e =>
      let (res, tr) := attemptLoop submit payload note remaining (attempt + 1) (some e)
      (res, payload :: tr)

/-- The side-flipped batch of the BUY fallback:
`orders.map(order => ({ ...order, side: 1 }))`. -/
def buySideOrders (orders : List ContractOrder) : List ContractOrder :=
  orders.map (fun o => { o with side := 1 })

/-- `#executeBatchTransaction(orders)`: up to `maxRetries` SELL attempts
on `orders`, then up to `maxRetries` BUY attempts on the side-flipped
batch (tagged with the fallback note), then the final throw
`All transaction attempts failed: <lastError?.message || 'Unknown error'>`.
Also returns the ordered list of submitted payloads. -/
def executeBatchTransaction (submit : List ContractOrder → ℕ → Except String Receipt)
    (maxRetries : ℕ) (orders : List ContractOrder) :
    Except String ExecResult × List (List ContractOrder) :=
  match attemptLoop submit orders none maxRetries 0 none with
  | (Except.ok r, tr) => (Except.ok r, tr)
  | (Except.error lastError, trSell) =>
    match attemptLoop submit (buySideOrders orders)
        (some "Created BUY orders instead of SELL orders") maxRetries 0 lastError with
    | (Except.ok r, trBuy) => (Except.ok r, trSell ++ trBuy)
    | (Except.error lastError2, trBuy) =>
      (Except.error ("All transaction attempts failed: " ++ jsOrElse lastError2 "Unknown error"),
        trSell ++ trBuy)

/-- The `try` body of `createBatchOrders`, every throw routed into
`Except.error`.  Besides the pipeline outcome it returns the number of
approval transactions issued and the list of submitted batch payloads. -/
def createBatchOrdersExc (env : Env) (reqs : List OrderRequest) :
    Except String (ℕ × ExecResult) × ℕ × List (List ContractOrder) :=
  let rl := (checkRateLimit env.rateHistory env.now 5 60000).1
  if rl.allowed = false then
    (Except.error ("Rate limit exceeded. Try again in "
      ++ toString (rl.resetTime.getD 0) ++ " seconds."), 0, [])
  else if env.isConnected = false then
    (Except.error "Wallet not connected", 0, [])
  else
    match (if env.isOnCorrectNetwork then Except.ok () else env.switchNetwork) with
    | Except.error e => (Except.error e, 0, [])
    | Except.ok _ =>
      match (if env.contractReady then Except.ok () else env.initContracts) with
      | Except.error e => (Except.error e, 0, [])
      | Except.ok _ =>
        match (validateAndPrepareOrders env reqs).1 with
        | Except.error e => (Except.error e, 0, [])
        | Except.ok validatedOrders =>
          if validatedOrders.length = 0 then
            (Except.error "No valid orders to create", 0, [])
          else
            match ensureApprovals env with
            | (Except.error e, n) => (Except.error e, n, [])
            | (Except.ok _, n) =>
              match executeBatchTransaction env.submit env.maxRetries validatedOrders with
              | (Except.ok r, tr) => (Except.ok (validatedOrders.length, r), n, tr)
              | (Except.error e, tr) => (Except.error e, n, tr)

/-- `createBatchOrders(orderRequests)`: the surrounding `try`/`catch`.
On success the `TransactionResult` carries the hash/block/gas data and
`ordersCreated` — the constructor call does not pass `result.note`, so
the returned record never carries the BUY-fallback note.  On any throw
the catch block returns `{success: false, error: error.message}`. -/
def createBatchOrders (env : Env) (reqs : List OrderRequest) :
    TransactionResult × ℕ × List (List ContractOrder) :=
  match createBatchOrdersExc env reqs with
  | (Except.ok (count, r), n, tr) =>
    ({ success := true, txHash := some r.txHash, blockNumber := some r.blockNumber,
       gasUsed := some r.gasUsed, ordersCreated := some count }, n, tr)
  | (Except.error e, n, tr) =>
    ({ success := false, error := some e }, n, tr)

/-! ## Shared evaluation helpers -/

/-- A sanitized value is only ever produced by the accepting branch of
`#validateQuantity`, which also bounds it by the configured range. -/
theorem validateQuantity_sanitized (s : JsStr) (q : ℤ)
    (hq : (validateQuantity s).sanitizedValue = some q) :
    validateQuantity s = ⟨true, some q, []⟩ ∧ 1 ≤ q ∧ q ≤ 16777215 := by
  rw [validateQuantity] at hq ⊢
  cases h : jsParseInt s with
  | none => rw [h] at hq; simp at hq
  | some i =>
    rw [h] at hq
    dsimp only at hq ⊢
    split_ifs at hq ⊢ with h1 h2 h3
    all_goals simp_all [quantityRulesMin, quantityRulesMax]

/-- The same, through the `validateInput` wrapper. -/
theorem validateInputQuantity_sanitized (s : JsStr) (q : ℤ)
    (hq : (validateInputQuantity s).sanitizedValue = some q) :
    validateInputQuantity s = ⟨true, some q, []⟩ ∧ 1 ≤ q ∧ q ≤ 16777215 := by
  rw [validateInputQuantity] at hq ⊢
  by_cases h : s.length > maxInputLength
  · rw [if_pos h] at hq
    simp at hq
  · rw [if_neg h] at hq ⊢
    exact validateQuantity_sanitized s q hq

/-- A request whose balance read succeeds with a sufficient balance,
whose amount validates, whose two ethers conversions succeed and whose
contract limits hold survives `processRequest` as the corresponding
contract order. -/
theorem processRequest_eval (env : Env) (r : OrderRequest) (b : ℕ) (q pw bn : ℤ)
    (hb : env.balanceOf r.tokenId = Except.ok b)
    (hq : validateInputQuantity r.amount = ⟨true, some q, []⟩)
    (hle : q ≤ (b : ℤ))
    (hpe : parseEtherM r.priceInEth = some pw)
    (hbn : bigNumberFromM r.amount = some bn)
    (hlim : validateContractLimits
      ⟨if jsOrElse r.side "sell" = "sell" then 0 else 1, r.tokenId, pw, bn⟩ = true) :
    processRequest env r
      = some ⟨if jsOrElse r.side "sell" = "sell" then 0 else 1, r.tokenId, pw, bn⟩ := by
  have hbal : getUserBalance env r.tokenId = (b : ℤ) := by rw [getUserBalance, hb]
  have hcs : canSell (getUserBalance env r.tokenId) r.amount = ⟨true, none⟩ := by
    rw [hbal, canSell, hq]
    dsimp only
    rw [if_neg (by simp), if_neg (by omega)]
  rw [processRequest]
  simp only [hcs, hpe, hbn, hlim]
  simp

/-- A request whose amount validates but exceeds the read balance is
dropped by `processRequest`. -/
theorem processRequest_insufficient (env : Env) (r : OrderRequest) (b : ℕ) (q : ℤ)
    (hb : env.balanceOf r.tokenId = Except.ok b)
    (hq : validateInputQuantity r.amount = ⟨true, some q, []⟩)
    (hgt : q > (b : ℤ)) :
    processRequest env r = none := by
  have hbal : getUserBalance env r.tokenId = (b : ℤ) := by rw [getUserBalance, hb]
  have hcs : canSell (getUserBalance env r.tokenId) r.amount
      = ⟨false, some ("Insufficient balance. Have: " ++ toString (b : ℤ)
          ++ ", Need: " ++ toString q)⟩ := by
    rw [hbal, canSell, hq]
    dsimp only
    rw [if_neg (by simp), if_pos hgt]
  rw [processRequest]
  simp only [hcs]
  simp

/-- When the rate limit admits, the wallet is connected on the right
network, the contract is initialized and validation yields a non-empty
batch, `createBatchOrders` reduces to the approval step followed by the
batch submission. -/
theorem createBatchOrders_reaches_submit (env : Env) (reqs : List OrderRequest)
    (V : List ContractOrder)
    (hrl : (checkRateLimit env.rateHistory env.now 5 60000).1.allowed = true)
    (hconn : env.isConnected = true) (hnet : env.isOnCorrectNetwork = true)
    (hready : env.contractReady = true)
    (hval : (validateAndPrepareOrders env reqs).1 = Except.ok V)
    (hne : V ≠ []) :
    createBatchOrders env reqs
      = match ensureApprovals env with
        | (Except.error e, n) => ({ success := false, error := some e }, n, [])
        | (Except.ok _, n) =>
          match executeBatchTransaction env.submit env.maxRetries V with
          | (Except.ok r, tr) =>
            ({ success := true, txHash := some r.txHash, blockNumber := some r.blockNumber,
               gasUsed := some r.gasUsed, ordersCreated := some V.length }, n, tr)
          | (Except.error e, tr) => ({ success := false, error := some e }, n, tr) := by
  rw [createBatchOrders, createBatchOrdersExc]
  rw [if_neg (by simp [hrl]), if_neg (by simp [hconn]), if_pos hnet, if_pos hready, hval]
  dsimp only
  rw [if_neg (by simpa using hne)]
  rcases happ : ensureApprovals env with ⟨res, n⟩
  cases res with
  | error e => rfl
  | ok u =>
    rcases hex : executeBatchTransaction env.submit env.maxRetries V with ⟨r, tr⟩
    cases r with
    | error e => rfl
    | ok r => rfl

/-! ## Claim C7: price validation -/

/-- C7: for every input `p`, price validation accepts `p` (isValid true,
sanitizedValue the parsed number) if and only if `p` denotes (parses
via `parseFloat` to) a positive number in `[0.000001, 1000000]`;
otherwise it returns `isValid = false` with an error and a null
sanitized value. -/
theorem C7_price_validation_range (p : JsStr) :
    ((validatePrice p).isValid = true ↔
      ∃ x : ℚ, jsParseFloat p = some x ∧ 0 < x ∧ priceRulesMin ≤ x ∧ x ≤ priceRulesMax)
    ∧ (∀ x : ℚ, jsParseFloat p = some x → priceRulesMin ≤ x → x ≤ priceRulesMax →
        validatePrice p = ⟨true, some x, []⟩)
    ∧ ((validatePrice p).isValid = false →
        (validatePrice p).sanitizedValue = none ∧ (validatePrice p).errors ≠ []) := by
  have hmin : (0 : ℚ) < priceRulesMin := by norm_num [priceRulesMin]
  unfold validatePrice
  cases h : jsParseFloat p with
  | none => simp
  | some x =>
    dsimp only
    split_ifs with h1 h2 h3
    · refine ⟨?_, ?_, by simp⟩
      · simp only [show (false = true) = False by simp, false_iff]
        rintro ⟨x', hx', _, hmin', _⟩
        rw [Option.some_inj] at hx'
        subst hx'
        linarith
      · intro x' hx' hmin' _
        rw [Option.some_inj] at hx'
        subst hx'
        linarith
    · refine ⟨?_, ?_, by simp⟩
      · simp only [show (false = true) = False by simp, false_iff]
        rintro ⟨x', hx', _, _, hmax'⟩
        rw [Option.some_inj] at hx'
        subst hx'
        linarith
      · intro x' hx' _ hmax'
        rw [Option.some_inj] at hx'
        subst hx'
        linarith
    · refine ⟨?_, ?_, by simp⟩
      · simp only [show (false = true) = False by simp, false_iff]
        rintro ⟨x', hx', hpos, _, _⟩
        rw [Option.some_inj] at hx'
        subst hx'
        linarith
      · intro x' hx' hmin' _
        rw [Option.some_inj] at hx'
        subst hx'
        linarith
    · refine ⟨?_, ?_, by simp⟩
      · simp only [show (true = true) = True by simp, true_iff]
        exact ⟨x, rfl, by linarith, by linarith, by linarith⟩
      · intro x' hx' _ _
        rw [Option.some_inj] at hx'
        subst hx'
        rfl

/-- C7 witness: the price `"1.5"` parses to `3/2`, lies in range, and is
accepted with sanitized value `3/2`. -/
theorem C7_price_validation_range_witness :
    validatePrice [JsChar.digit 1, JsChar.dot, JsChar.digit 5] = ⟨true, some (3 / 2 : ℚ), []⟩ :=
  (C7_price_validation_range [JsChar.digit 1, JsChar.dot, JsChar.digit 5]).2.1 (3 / 2)
    (by norm_num [jsParseFloat, takeDigits, parseSign, parseExp, digitsToNat])
    (by norm_num [priceRulesMin]) (by norm_num [priceRulesMax])

/-! ## Claim C6: quantity validation -/

/-- C6 counterexample: the input `"1e3"` denotes (parses via `parseFloat`
to) the integer `1000`, which lies in `[1, 16777215]`, yet
`validateQuantity` rejects it — `parseInt` stops at the exponent marker
and yields `1 ≠ 1000`.  This refutes the claimed equivalence
"accepted iff the input denotes an integer in `[1, 16777215]`". -/
theorem C6_counterexample :
    jsParseFloat [JsChar.digit 1, JsChar.expE, JsChar.digit 3] = some ((1000 : ℤ) : ℚ)
    ∧ (1 : ℤ) ≤ 1000 ∧ (1000 : ℤ) ≤ 16777215
    ∧ (validateQuantity [JsChar.digit 1, JsChar.expE, JsChar.digit 3]).isValid = false
    ∧ (validateQuantity [JsChar.digit 1, JsChar.expE, JsChar.digit 3]).sanitizedValue = none := by
  refine ⟨?_, by norm_num, by norm_num, ?_, ?_⟩
  · norm_num [jsParseFloat, takeDigits, parseSign, parseExp, digitsToNat]
  · norm_num [validateQuantity, jsParseInt, jsParseFloat, takeDigits, parseSign, parseExp,
      digitsToNat, quantityRulesMin, quantityRulesMax]
  · norm_num [validateQuantity, jsParseInt, jsParseFloat, takeDigits, parseSign, parseExp,
      digitsToNat, quantityRulesMin, quantityRulesMax]

/-- C6 amended: quantity validation accepts an input iff its `parseInt`
(base 10) result and its full `parseFloat` value agree on one integer in
`[1, 16777215]`; the sanitized value is then that integer.  (So plain
decimal integer numerals in range are accepted, while representations
whose full numeric value differs from their leading-integer parse —
fractional forms, exponent notation such as `"1e3"` — are rejected.)
Otherwise it returns `isValid = false` with an error and a null
sanitized value. -/
theorem C6_quantity_validation_amended (q : JsStr) :
    ((validateQuantity q).isValid = true ↔
      ∃ i : ℤ, jsParseInt q = some i ∧ jsParseFloat q = some (i : ℚ)
        ∧ 1 ≤ i ∧ i ≤ 16777215)
    ∧ (∀ i : ℤ, jsParseInt q = some i → jsParseFloat q = some (i : ℚ) →
        1 ≤ i → i ≤ 16777215 → validateQuantity q = ⟨true, some i, []⟩)
    ∧ ((validateQuantity q).isValid = false →
        (validateQuantity q).sanitizedValue = none ∧ (validateQuantity q).errors ≠ []) := by
  unfold validateQuantity
  cases h : jsParseInt q with
  | none => simp
  | some i =>
    dsimp only
    split_ifs with h1 h2 h3
    · refine ⟨?_, ?_, by simp⟩
      · simp only [show (false = true) = False by simp, false_iff]
        rintro ⟨i', hi', _, hmin', _⟩
        rw [Option.some_inj] at hi'
        subst hi'
        simp [quantityRulesMin] at h1
        omega
      · intro i' hi' _ hmin' _
        rw [Option.some_inj] at hi'
        subst hi'
        simp [quantityRulesMin] at h1
        omega
    · refine ⟨?_, ?_, by simp⟩
      · simp only [show (false = true) = False by simp, false_iff]
        rintro ⟨i', hi', _, _, hmax'⟩
        rw [Option.some_inj] at hi'
        subst hi'
        simp [quantityRulesMax] at h2
        omega
      · intro i' hi' _ _ hmax'
        rw [Option.some_inj] at hi'
        subst hi'
        simp [quantityRulesMax] at h2
        omega
    · refine ⟨?_, ?_, by simp⟩
      · simp only [show (false = true) = False by simp, false_iff]
        rintro ⟨i', hi', hf', _, _⟩
        rw [Option.some_inj] at hi'
        subst hi'
        exact h3 hf'
      · intro i' hi' hf' _ _
        rw [Option.some_inj] at hi'
        subst hi'
        exact absurd hf' h3
    · rw [not_not] at h3
      refine ⟨?_, ?_, by simp⟩
      · simp only [show (true = true) = True by simp, true_iff]
        refine ⟨i, rfl, h3, ?_, ?_⟩
        · simpa [quantityRulesMin] using h1
        · simpa [quantityRulesMax] using h2
      · intro i' hi' _ _ _
        rw [Option.some_inj] at hi'
        subst hi'
        rfl

/-- C6 amended witness: the plain numeral `"42"` is accepted with
sanitized value `42`. -/
theorem C6_quantity_validation_amended_witness :
    validateQuantity [JsChar.digit 4, JsChar.digit 2] = ⟨true, some 42, []⟩ :=
  (C6_quantity_validation_amended [JsChar.digit 4, JsChar.digit 2]).2.1 42
    (by norm_num [jsParseInt, takeDigits, parseSign, digitsToNat])
    (by norm_num [jsParseFloat, takeDigits, parseSign, parseExp, digitsToNat])
    (by norm_num) (by norm_num)

/-! ## Claim C3: batch-size cap -/

/-- C3: a request list longer than `maxBatchSize` (50) makes batch
preparation fail fast with the single cap error before any per-item
processing (no balance-oracle calls, empty tokenId trace) and no
truncation; through `createBatchOrders` this failure yields a failed
result with no approval transaction and no submission.  A list of
length exactly `maxBatchSize` passes the cap check and is processed
item by item. -/
theorem C3_batch_size_cap (env : Env) (reqs : List OrderRequest) :
    (maxBatchSize < reqs.length →
      validateAndPrepareOrders env reqs
        = (Except.error "Too many orders. Maximum 50 orders per batch.", [])
      ∧ ((checkRateLimit env.rateHistory env.now 5 60000).1.allowed = true →
          env.isConnected = true → env.isOnCorrectNetwork = true → env.contractReady = true →
          createBatchOrders env reqs
            = ({ success := false,
                 error := some "Too many orders. Maximum 50 orders per batch." }, 0, [])))
    ∧ (reqs.length = maxBatchSize →
        validateAndPrepareOrders env reqs
          = (Except.ok (reqs.filterMap (processRequest env)), reqs.map (·.tokenId))) := by
  have hmsg : ("Too many orders. Maximum " ++ toString maxBatchSize ++ " orders per batch.")
      = "Too many orders. Maximum 50 orders per batch." := by decide
  constructor
  · intro hlen
    have hval : validateAndPrepareOrders env reqs
        = (Except.error "Too many orders. Maximum 50 orders per batch.", []) := by
      rw [validateAndPrepareOrders, if_pos hlen, hmsg]
    refine ⟨hval, fun hrl hconn hnet hready => ?_⟩
    rw [createBatchOrders, createBatchOrdersExc]
    rw [if_neg (by simp [hrl]), if_neg (by simp [hconn]), if_pos hnet, if_pos hready]
    rw [hval]
  · intro hlen
    rw [validateAndPrepareOrders, if_neg (by omega)]

/-- C3 witness: with a trivially failing environment and 51 empty-field
requests, the call fails with the cap error, reads no balances, issues
no approval and submits nothing; with 50 requests the cap check
passes. -/
theorem C3_batch_size_cap_witness :
    validateAndPrepareOrders
        ⟨0, [], true, true, Except.ok (), true, Except.ok (), 3, fun _ => Except.ok 0,
          Except.ok true, Except.ok (), fun _ _ => Except.error "down"⟩
        (List.replicate 51 ⟨1, none, [], []⟩)
      = (Except.error "Too many orders. Maximum 50 orders per batch.", [])
    ∧ validateAndPrepareOrders
        ⟨0, [], true, true, Except.ok (), true, Except.ok (), 3, fun _ => Except.ok 0,
          Except.ok true, Except.ok (), fun _ _ => Except.error "down"⟩
        (List.replicate 50 ⟨1, none, [], []⟩)
      = (Except.ok ((List.replicate 50 ⟨1, none, [], []⟩).filterMap
          (processRequest ⟨0, [], true, true, Except.ok (), true, Except.ok (), 3,
            fun _ => Except.ok 0, Except.ok true, Except.ok (), fun _ _ => Except.error "down"⟩)),
         (List.replicate 50 (⟨1, none, [], []⟩ : OrderRequest)).map (·.tokenId)) :=
  ⟨(C3_batch_size_cap _ _).1 (by simp [maxBatchSize]) |>.1,
   (C3_batch_size_cap _ _).2 (by simp [maxBatchSize])⟩

/-! ## Claim C9: approval idempotence and fatality -/

/-- C9: when the operator is already approved, `#ensureApprovals` issues
zero `setApprovalForAll` transactions (so any repetition of the call in
the same state still issues zero); when not approved it issues exactly
one; a failure of the authorization transaction (or of its awaited
confirmation) surfaces as the fatal wrapped error, and through
`createBatchOrders` it fails the whole call with no submission attempt
and no retry of the approval. -/
theorem C9_ensure_approvals (env : Env) :
    (env.isApprovedForAll = Except.ok true →
      ensureApprovals env = (Except.ok (), 0)
      ∧ (ensureApprovals env).2 + (ensureApprovals env).2 = 0)
    ∧ (env.isApprovedForAll = Except.ok false → (ensureApprovals env).2 = 1)
    ∧ (∀ e, env.isApprovedForAll = Except.ok false → env.setApprovalForAll = Except.error e →
        ensureApprovals env = (Except.error ("Failed to approve marketplace: " ++ e), 1))
    ∧ (∀ reqs V e n,
        (checkRateLimit env.rateHistory env.now 5 60000).1.allowed = true →
        env.isConnected = true → env.isOnCorrectNetwork = true → env.contractReady = true →
        (validateAndPrepareOrders env reqs).1 = Except.ok V → V ≠ [] →
        ensureApprovals env = (Except.error e, n) →
        createBatchOrders env reqs = ({ success := false, error := some e }, n, [])) := by
    refine ⟨?_, ?_, ?_, ?_⟩
    · intro h
      rw [ensureApprovals, h]
      exact ⟨rfl, rfl⟩
    · intro h
      rw [ensureApprovals, h]
      cases env.setApprovalForAll <;> rfl
    · intro e h hset
      rw [ensureApprovals, h, hset]
    · intro reqs V e n hrl hconn hnet hready hval hne happ
      rw [createBatchOrders_reaches_submit env reqs V hrl hconn hnet hready hval hne, happ]

/-- C9 witness: in a concrete already-approved environment the call
issues zero approval transactions, twice in a row still zero; in a
concrete environment whose authorization transaction fails, the batch
call fails with the wrapped approval error, one issued approval and no
submission. -/
theorem C9_ensure_approvals_witness :
    ensureApprovals
        ⟨0, [], true, true, Except.ok (), true, Except.ok (), 3, fun _ => Except.ok 9,
          Except.ok true, Except.ok (), fun _ _ => Except.error "down"⟩ = (Except.ok (), 0)
    ∧ createBatchOrders
        ⟨0, [], true, true, Except.ok (), true, Except.ok (), 3, fun _ => Except.ok 9,
          Except.ok false, Except.error "user rejected", fun _ _ => Except.error "down"⟩
        [⟨7, some "sell", [JsChar.digit 1], [JsChar.digit 3]⟩]
      = ({ success := false, error := some "Failed to approve marketplace: user rejected" }, 1, []) := by
  refine ⟨((C9_ensure_approvals _).1 rfl).1, ?_⟩
  have hval : (validateAndPrepareOrders
      ⟨0, [], true, true, Except.ok (), true, Except.ok (), 3, fun _ => Except.ok 9,
        Except.ok false, Except.error "user rejected", fun _ _ => Except.error "down"⟩
      [⟨7, some "sell", [JsChar.digit 1], [JsChar.digit 3]⟩]).1
      = Except.ok [⟨0, 7, 10 ^ 18, 3⟩] := by
    rw [validateAndPrepareOrders, if_neg (by simp [maxBatchSize])]
    have hq : validateInputQuantity [JsChar.digit 3] = ⟨true, some 3, []⟩ := by
      norm_num [validateInputQuantity, maxInputLength, validateQuantity, jsParseInt, jsParseFloat,
        takeDigits, parseSign, parseExp, digitsToNat, quantityRulesMin, quantityRulesMax]
    have hproc : processRequest
        ⟨0, [], true, true, Except.ok (), true, Except.ok (), 3, fun _ => Except.ok 9,
          Except.ok false, Except.error "user rejected", fun _ _ => Except.error "down"⟩
        ⟨7, some "sell", [JsChar.digit 1], [JsChar.digit 3]⟩ = some ⟨0, 7, 10 ^ 18, 3⟩ := by
      have := processRequest_eval
        ⟨0, [], true, true, Except.ok (), true, Except.ok (), 3, fun _ => Except.ok 9,
          Except.ok false, Except.error "user rejected", fun _ _ => Except.error "down"⟩
        ⟨7, some "sell", [JsChar.digit 1], [JsChar.digit 3]⟩ 9 3 (10 ^ 18) 3
        rfl hq (by norm_num) (by decide) (by decide) (by decide)
      simpa using this
    simp [hproc]
  exact (C9_ensure_approvals _).2.2.2 _ _ _ _ rfl rfl rfl rfl hval (by simp)
    ((C9_ensure_approvals _).2.2.1 "user rejected" rfl rfl)

/-! ## Claim C10: balance-oracle failure -/

/-- C10: when the balance read for a request's token throws, the
pipeline treats that request as having balance 0 (`#getUserBalance`
returns 0), so any request whose validated quantity is at least 1 is
dropped as insufficient balance, while the rest of the batch is
processed normally and the call as a whole still succeeds (the oracle
failure alone never fails the call). -/
theorem C10_oracle_failure_drops_item (env : Env) (r : OrderRequest) (e : String) (q : ℤ)
    (l1 l2 : List OrderRequest)
    (hb : env.balanceOf r.tokenId = Except.error e)
    (hq : (validateInputQuantity r.amount).sanitizedValue = some q)
    (h1 : 1 ≤ q) :
    getUserBalance env r.tokenId = 0
    ∧ processRequest env r = none
    ∧ ((l1 ++ r :: l2).length ≤ maxBatchSize →
        validateAndPrepareOrders env (l1 ++ r :: l2)
          = (Except.ok (l1.filterMap (processRequest env) ++ l2.filterMap (processRequest env)),
             (l1 ++ r :: l2).map (·.tokenId))) := by
  have hbal : getUserBalance env r.tokenId = 0 := by rw [getUserBalance, hb]
  obtain ⟨hq', hq1, hq2⟩ := validateInputQuantity_sanitized r.amount q hq
  have hdrop : processRequest env r = none := by
    have hcs : canSell (getUserBalance env r.tokenId) r.amount
        = ⟨false, some ("Insufficient balance. Have: " ++ toString (0 : ℤ)
            ++ ", Need: " ++ toString q)⟩ := by
      rw [hbal, canSell, hq']
      dsimp only
      rw [if_neg (by simp), if_pos (by omega)]
    rw [processRequest]
    simp only [hcs]
    simp
  refine ⟨hbal, hdrop, fun hlen => ?_⟩
  rw [validateAndPrepareOrders, if_neg (by omega)]
  rw [List.filterMap_append, List.filterMap_cons, hdrop]

/-- C10 witness: a concrete batch of two requests in which the oracle
throws for token 7 and answers 5 for token 8: the token-7 request is
dropped with balance read as 0, the token-8 request survives, and the
preparation call succeeds. -/
theorem C10_oracle_failure_drops_item_witness :
    getUserBalance
        ⟨0, [], true, true, Except.ok (), true, Except.ok (), 3,
          fun t => if t = 7 then Except.error "network down" else Except.ok 5,
          Except.ok true, Except.ok (), fun _ _ => Except.error "down"⟩ 7 = 0
    ∧ validateAndPrepareOrders
        ⟨0, [], true, true, Except.ok (), true, Except.ok (), 3,
          fun t => if t = 7 then Except.error "network down" else Except.ok 5,
          Except.ok true, Except.ok (), fun _ _ => Except.error "down"⟩
        [⟨7, some "sell", [JsChar.digit 1], [JsChar.digit 3]⟩,
         ⟨8, some "sell", [JsChar.digit 1], [JsChar.digit 3]⟩]
      = (Except.ok [⟨0, 8, 10 ^ 18, 3⟩], [7, 8]) := by
  have hq : validateInputQuantity [JsChar.digit 3] = ⟨true, some 3, []⟩ := by
    norm_num [validateInputQuantity, maxInputLength, validateQuantity, jsParseInt, jsParseFloat,
      takeDigits, parseSign, parseExp, digitsToNat, quantityRulesMin, quantityRulesMax]
  obtain ⟨hbal, hdrop, hrest⟩ := C10_oracle_failure_drops_item
    ⟨0, [], true, true, Except.ok (), true, Except.ok (), 3,
      fun t => if t = 7 then Except.error "network down" else Except.ok 5,
      Except.ok true, Except.ok (), fun _ _ => Except.error "down"⟩
    ⟨7, some "sell", [JsChar.digit 1], [JsChar.digit 3]⟩ "network down" 3
    [] [⟨8, some "sell", [JsChar.digit 1], [JsChar.digit 3]⟩]
    (by norm_num) (by rw [hq]) (by norm_num)
  refine ⟨hbal, ?_⟩
  have h3 := hrest (by simp [maxBatchSize])
  simp only [List.nil_append] at h3
  rw [h3]
  have hproc8 : processRequest
      ⟨0, [], true, true, Except.ok (), true, Except.ok (), 3,
        fun t => if t = 7 then Except.error "network down" else Except.ok 5,
        Except.ok true, Except.ok (), fun _ _ => Except.error "down"⟩
      ⟨8, some "sell", [JsChar.digit 1], [JsChar.digit 3]⟩ = some ⟨0, 8, 10 ^ 18, 3⟩ := by
    have := processRequest_eval
      ⟨0, [], true, true, Except.ok (), true, Except.ok (), 3,
        fun t => if t = 7 then Except.error "network down" else Except.ok 5,
        Except.ok true, Except.ok (), fun _ _ => Except.error "down"⟩
      ⟨8, some "sell", [JsChar.digit 1], [JsChar.digit 3]⟩ 5 3 (10 ^ 18) 3
      (by norm_num) hq (by norm_num) (by decide) (by decide) (by decide)
    simpa using this
  simp [hproc8]

/-! ## Claim C5: sliding-window rate limiter -/

/-- C5: for every key state (`stored`, sorted since timestamps are
appended in clock order) with `maxRequests = N ≥ 1` and positive window
`W`: timestamps not newer than `now - W` are discarded from the stored
history before counting; whenever `N` (or more) retained timestamps are
newer than `now - W` the call is rejected and `resetTime` is the
ceiling, in seconds, of the time until the oldest retained timestamp
leaves the window; otherwise the call is admitted and the current
timestamp is recorded after the retained ones. -/
theorem C5_rate_limiter_sliding_window (stored : List ℤ) (now : ℤ) (N : ℕ) (W : ℤ)
    (hN : 1 ≤ N) (hW : 0 < W) (hsorted : stored.Sorted (· ≤ ·)) :
    (∀ t ∈ stored, t ≤ now - W → t ∉ (checkRateLimit stored now N W).2)
    ∧ (N ≤ (stored.filter (fun t => now - W < t)).length →
        (checkRateLimit stored now N W).1.allowed = false
        ∧ ∃ t0, (stored.filter (fun t => now - W < t)).head? = some t0
            ∧ (∀ t ∈ stored.filter (fun t => now - W < t), t0 ≤ t)
            ∧ (checkRateLimit stored now N W).1.resetTime
                = some (jsCeilDiv1000 (t0 + W - now)))
    ∧ ((stored.filter (fun t => now - W < t)).length < N →
        (checkRateLimit stored now N W).1 = ⟨true, none⟩
        ∧ (checkRateLimit stored now N W).2
            = stored.filter (fun t => now - W < t) ++ [now]) := by
  by_cases hlen : N ≤ (stored.filter (fun t => now - W < t)).length
  · have hck : checkRateLimit stored now N W
        = (⟨false, some (jsCeilDiv1000
            ((stored.filter (fun t => now - W < t)).headD 0 + W - now))⟩,
           stored.filter (fun t => now - W < t)) := by
      rw [checkRateLimit, if_pos hlen]
    obtain ⟨t0, rest, hcons⟩ :
        ∃ t0 rest, stored.filter (fun t => now - W < t) = t0 :: rest := by
      cases hfil : stored.filter (fun t => now - W < t) with
      | nil => rw [hfil] at hlen; simp at hlen; omega
      | cons a l => exact ⟨a, l, rfl⟩
    have hsortrec : (stored.filter (fun t => now - W < t)).Sorted (· ≤ ·) :=
      hsorted.filter _
    have hmin : ∀ t ∈ stored.filter (fun t => now - W < t), t0 ≤ t := by
      rw [hcons] at hsortrec ⊢
      rw [List.sorted_cons] at hsortrec
      intro t ht
      rcases List.mem_cons.mp ht with h | h
      · omega
      · exact hsortrec.1 t h
    refine ⟨?_, fun _ => ⟨by rw [hck], t0, by rw [hcons]; rfl, hmin, ?_⟩,
      fun h => absurd hlen (by omega)⟩
    · intro t ht hold
      rw [hck]
      intro hmem
      have := (List.mem_filter.mp hmem).2
      simp at this
      omega
    · rw [hck, hcons]
      simp
  · have hck : checkRateLimit stored now N W
        = (⟨true, none⟩, stored.filter (fun t => now - W < t) ++ [now]) := by
      rw [checkRateLimit, if_neg hlen]
    refine ⟨?_, fun h => absurd h hlen, fun _ => ⟨by rw [hck], by rw [hck]⟩⟩
    intro t ht hold
    rw [hck]
    intro hmem
    rcases List.mem_append.mp hmem with h | h
    · have := (List.mem_filter.mp h).2
      simp at this
      omega
    · simp at h
      omega

/-- C5 witness: the key holds 5 admitted timestamps `0..4`, the limit is
`N = 5` per `W = 60000` ms: the 6th call at `now = 5` is rejected with a
60-second reset (the oldest timestamp 0 exits the window at 60000, i.e.
in 59995 ms, whose second-ceiling is 60). -/
theorem C5_rate_limiter_sliding_window_witness :
    (checkRateLimit [0, 1, 2, 3, 4] 5 5 60000).1.allowed = false
    ∧ (checkRateLimit [0, 1, 2, 3, 4] 5 5 60000).1.resetTime = some 60 := by
  obtain ⟨-, h2, -⟩ := C5_rate_limiter_sliding_window [0, 1, 2, 3, 4] 5 5 60000
    (by norm_num) (by norm_num) (by decide)
  obtain ⟨ha, t0, ht0, -, hrt⟩ := h2 (by decide)
  have hfil : ([0, 1, 2, 3, 4] : List ℤ).filter (fun t => (5 : ℤ) - 60000 < t)
      = [0, 1, 2, 3, 4] := by decide
  rw [hfil] at ht0
  have ht0' : t0 = 0 := by simpa using ht0.symm
  subst ht0'
  refine ⟨ha, ?_⟩
  rw [hrt]
  decide

/-! ## Claim C1: exhaustive retry schedule -/

/-- A retry loop whose every attempt fails makes exactly `n` attempts
and ends holding the message of its last attempt (or the incoming
`lastError` when it runs zero attempts). -/
theorem attemptLoop_allFail (submit : List ContractOrder → ℕ → Except String Receipt)
    (payload : List ContractOrder) (note : Option String) (m : ℕ → String)
    (hf : ∀ i, submit payload i = Except.error (m i)) :
    ∀ (n a : ℕ) (le : Option String),
      attemptLoop submit payload note n a le
        = (Except.error (if n = 0 then le else some (m (a + n - 1))),
           List.replicate n payload) := by
  intro n
  induction n with
  | zero => intro a le; rfl
  | succ k ih =>
    intro a le
    simp only [attemptLoop, hf a]
    rw [ih (a + 1) (some (m a))]
    by_cases hk : k = 0
    · subst hk
      simp [List.replicate_succ]
    · have harith : a + 1 + k - 1 = a + (k + 1) - 1 := by omega
      simp only [if_neg hk, if_neg (Nat.succ_ne_zero k), harith, List.replicate_succ]

/-- C1: with `maxRetries ≥ 1`, a non-empty validated batch and a
submitter whose every gas-estimation/submission attempt fails (`m` gives
each attempt's failure message), the submitter makes exactly
`maxRetries` sell-side attempts followed by exactly `maxRetries`
buy-side attempts on the side-flipped batch — `2 × maxRetries` in
total, never interleaved — and the enclosing `createBatchOrders` call
returns a failed `TransactionResult` whose error wraps the last (buy
loop, last attempt) failure's message. -/
theorem C1_retry_schedule (env : Env) (reqs : List OrderRequest) (V : List ContractOrder)
    (m : List ContractOrder → ℕ → String)
    (hN : 1 ≤ env.maxRetries)
    (hf : ∀ p i, env.submit p i = Except.error (m p i))
    (hrl : (checkRateLimit env.rateHistory env.now 5 60000).1.allowed = true)
    (hconn : env.isConnected = true) (hnet : env.isOnCorrectNetwork = true)
    (hready : env.contractReady = true)
    (hval : (validateAndPrepareOrders env reqs).1 = Except.ok V)
    (hne : V ≠ [])
    (happ : env.isApprovedForAll = Except.ok true) :
    executeBatchTransaction env.submit env.maxRetries V
      = (Except.error ("All transaction attempts failed: "
          ++ jsOrElse (some (m (buySideOrders V) (env.maxRetries - 1))) "Unknown error"),
         List.replicate env.maxRetries V
           ++ List.replicate env.maxRetries (buySideOrders V))
    ∧ createBatchOrders env reqs
      = ({ success := false,
           error := some ("All transaction attempts failed: "
             ++ jsOrElse (some (m (buySideOrders V) (env.maxRetries - 1))) "Unknown error") },
         0,
         List.replicate env.maxRetries V
           ++ List.replicate env.maxRetries (buySideOrders V))
    ∧ (m (buySideOrders V) (env.maxRetries - 1) ≠ "" →
        (createBatchOrders env reqs).1.error
          = some ("All transaction attempts failed: "
              ++ m (buySideOrders V) (env.maxRetries - 1))) := by
  have hex : executeBatchTransaction env.submit env.maxRetries V
      = (Except.error ("All transaction attempts failed: "
          ++ jsOrElse (some (m (buySideOrders V) (env.maxRetries - 1))) "Unknown error"),
         List.replicate env.maxRetries V
           ++ List.replicate env.maxRetries (buySideOrders V)) := by
    rw [executeBatchTransaction]
    rw [attemptLoop_allFail env.submit V none (m V) (hf V) env.maxRetries 0 none]
    rw [if_neg (by omega)]
    dsimp only
    rw [attemptLoop_allFail env.submit (buySideOrders V)
      (some "Created BUY orders instead of SELL orders") (m (buySideOrders V))
      (hf (buySideOrders V)) env.maxRetries 0 (some (m V (0 + env.maxRetries - 1)))]
    rw [if_neg (by omega)]
    norm_num
  have happ' : ensureApprovals env = (Except.ok (), 0) := by rw [ensureApprovals, happ]
  have hcreate : createBatchOrders env reqs
      = ({ success := false,
           error := some ("All transaction attempts failed: "
             ++ jsOrElse (some (m (buySideOrders V) (env.maxRetries - 1))) "Unknown error") },
         0,
         List.replicate env.maxRetries V
           ++ List.replicate env.maxRetries (buySideOrders V)) := by
    rw [createBatchOrders_reaches_submit env reqs V hrl hconn hnet hready hval hne, happ', hex]
  refine ⟨hex, hcreate, fun hm => ?_⟩
  rw [hcreate]
  simp [jsOrElse, hm]

/-- Environment of the C1 witness: everything healthy up to submission,
`maxRetries = 2`, and a submitter that rejects every attempt with
`"boom"`. -/
def envC1 : Env :=
  ⟨0, [], true, true, Except.ok (), true, Except.ok (), 2, fun _ => Except.ok 5,
    Except.ok true, Except.ok (), fun _ _ => Except.error "boom"⟩

/-- C1 witness: with `maxRetries = 2` and an always-failing submitter,
one valid request leads to exactly the trace sell, sell, buy, buy and a
failed result wrapping `"boom"`. -/
theorem C1_retry_schedule_witness :
    createBatchOrders envC1 [⟨7, some "sell", [JsChar.digit 1], [JsChar.digit 3]⟩]
      = ({ success := false,
           error := some ("All transaction attempts failed: "
             ++ jsOrElse (some "boom") "Unknown error") },
         0,
         [[⟨0, 7, 10 ^ 18, 3⟩], [⟨0, 7, 10 ^ 18, 3⟩],
          [⟨1, 7, 10 ^ 18, 3⟩], [⟨1, 7, 10 ^ 18, 3⟩]]) := by
  have hq : validateInputQuantity [JsChar.digit 3] = ⟨true, some 3, []⟩ := by
    norm_num [validateInputQuantity, maxInputLength, validateQuantity, jsParseInt, jsParseFloat,
      takeDigits, parseSign, parseExp, digitsToNat, quantityRulesMin, quantityRulesMax]
  have hproc : processRequest envC1 ⟨7, some "sell", [JsChar.digit 1], [JsChar.digit 3]⟩
      = some ⟨0, 7, 10 ^ 18, 3⟩ := by
    have := processRequest_eval envC1 ⟨7, some "sell", [JsChar.digit 1], [JsChar.digit 3]⟩
      5 3 (10 ^ 18) 3 rfl hq (by norm_num) (by decide) (by decide) (by decide)
    simpa using this
  have hval : (validateAndPrepareOrders envC1
      [⟨7, some "sell", [JsChar.digit 1], [JsChar.digit 3]⟩]).1
      = Except.ok [⟨0, 7, 10 ^ 18, 3⟩] := by
    rw [validateAndPrepareOrders, if_neg (by simp [maxBatchSize])]
    simp [hproc]
  have h := C1_retry_schedule envC1
    [⟨7, some "sell", [JsChar.digit 1], [JsChar.digit 3]⟩] [⟨0, 7, 10 ^ 18, 3⟩]
    (fun _ _ => "boom") (by decide) (fun _ _ => rfl) rfl rfl rfl rfl hval (by simp) rfl
  rw [h.2.1]
  simp [buySideOrders, List.replicate]

/-! ## Claim C2: one result, error discipline -/

/-- C2: `createBatchOrders` is a total function into `TransactionResult`
(every throw of the pipeline is caught, so exactly one result is
produced and nothing escapes the boundary); a successful result carries
a transaction hash and a null error, and a failed result carries a
non-null error (the caught message) and no hash — never success
together with an error. -/
theorem C2_result_discipline (env : Env) (reqs : List OrderRequest) :
    ((createBatchOrders env reqs).1.success = true →
      (createBatchOrders env reqs).1.error = none
      ∧ (createBatchOrders env reqs).1.txHash ≠ none)
    ∧ ((createBatchOrders env reqs).1.success = false →
      (createBatchOrders env reqs).1.error ≠ none
      ∧ (createBatchOrders env reqs).1.txHash = none)
    ∧ ¬((createBatchOrders env reqs).1.success = true
        ∧ (createBatchOrders env reqs).1.error ≠ none) := by
  rw [createBatchOrders]
  rcases h : createBatchOrdersExc env reqs with ⟨res, n, tr⟩
  cases res with
  | ok v =>
    rcases v with ⟨count, r⟩
    simp
  | error e =>
    simp

/-- Environment of the C2 witness: the wallet is not connected. -/
def envC2 : Env :=
  ⟨0, [], false, true, Except.ok (), true, Except.ok (), 3, fun _ => Except.ok 0,
    Except.ok true, Except.ok (), fun _ _ => Except.error "down"⟩

/-- C2 witness: with a disconnected wallet the call fails, and the
theorem forces its error to be non-null (it is the caught
`Wallet not connected` message). -/
theorem C2_result_discipline_witness :
    (createBatchOrders envC2 []).1.success = false
    ∧ (createBatchOrders envC2 []).1.error ≠ none := by
  have hs : (createBatchOrders envC2 []).1.success = false := by decide
  exact ⟨hs, ((C2_result_discipline envC2 []).2.1 hs).1⟩

/-! ## Claim C4: the BUY-fallback note is dropped (code bug) -/

/-- Environment of the C4 failing input: every sell-side submission
reverts, every buy-side submission succeeds, `maxRetries = 1`, already
approved. -/
def envC4 : Env :=
  ⟨0, [], true, true, Except.ok (), true, Except.ok (), 1, fun _ => Except.ok 5,
    Except.ok true, Except.ok (),
    fun orders _ =>
      if orders.all (fun o => o.side = 0) then Except.error "execution reverted"
      else Except.ok ⟨"0xabc", 123, 21000⟩⟩

/-- Environment of the C4 sell-success half: first sell attempt
succeeds, operator not yet approved. -/
def envC4sell : Env :=
  ⟨0, [], true, true, Except.ok (), true, Except.ok (), 3, fun _ => Except.ok 5,
    Except.ok false, Except.ok (), fun _ _ => Except.ok ⟨"0xdef", 124, 22000⟩⟩

/-- C4: when all sell attempts fail and the buy-side fallback succeeds,
`#executeBatchTransaction` returns a result tagged with the fallback
note, but `createBatchOrders` does not pass `result.note` to the
`TransactionResult` constructor, so the returned record has a null
note — contradicting the spec's `DONE(success, note=...)` state.  The
sell-side-success half behaves as specified: a successful result with a
null note, one approval transaction and one submission. -/
theorem C4_buy_fallback_note_dropped :
    (executeBatchTransaction envC4.submit 1 [⟨0, 7, 10 ^ 18, 3⟩]).1
      = Except.ok ⟨"0xabc", 123, 21000, some "Created BUY orders instead of SELL orders"⟩
    ∧ createBatchOrders envC4 [⟨7, some "sell", [JsChar.digit 1], [JsChar.digit 3]⟩]
      = ({ success := true, txHash := some "0xabc", blockNumber := some 123,
           gasUsed := some 21000, ordersCreated := some 1 }, 0,
         [[⟨0, 7, 10 ^ 18, 3⟩], [⟨1, 7, 10 ^ 18, 3⟩]])
    ∧ (createBatchOrders envC4
        [⟨7, some "sell", [JsChar.digit 1], [JsChar.digit 3]⟩]).1.note = none
    ∧ createBatchOrders envC4sell [⟨7, some "sell", [JsChar.digit 1], [JsChar.digit 3]⟩]
      = ({ success := true, txHash := some "0xdef", blockNumber := some 124,
           gasUsed := some 22000, ordersCreated := some 1 }, 1,
         [[⟨0, 7, 10 ^ 18, 3⟩]]) := by
  have hq : validateInputQuantity [JsChar.digit 3] = ⟨true, some 3, []⟩ := by
    norm_num [validateInputQuantity, maxInputLength, validateQuantity, jsParseInt, jsParseFloat,
      takeDigits, parseSign, parseExp, digitsToNat, quantityRulesMin, quantityRulesMax]
  have hproc : processRequest envC4 ⟨7, some "sell", [JsChar.digit 1], [JsChar.digit 3]⟩
      = some ⟨0, 7, 10 ^ 18, 3⟩ := by
    have := processRequest_eval envC4 ⟨7, some "sell", [JsChar.digit 1], [JsChar.digit 3]⟩
      5 3 (10 ^ 18) 3 rfl hq (by norm_num) (by decide) (by decide) (by decide)
    simpa using this
  have hval : (validateAndPrepareOrders envC4
      [⟨7, some "sell", [JsChar.digit 1], [JsChar.digit 3]⟩]).1
      = Except.ok [⟨0, 7, 10 ^ 18, 3⟩] := by
    rw [validateAndPrepareOrders, if_neg (by simp [maxBatchSize])]
    simp [hproc]
  have hproc' : processRequest envC4sell ⟨7, some "sell", [JsChar.digit 1], [JsChar.digit 3]⟩
      = some ⟨0, 7, 10 ^ 18, 3⟩ := by
    have := processRequest_eval envC4sell ⟨7, some "sell", [JsChar.digit 1], [JsChar.digit 3]⟩
      5 3 (10 ^ 18) 3 rfl hq (by norm_num) (by decide) (by decide) (by decide)
    simpa using this
  have hval' : (validateAndPrepareOrders envC4sell
      [⟨7, some "sell", [JsChar.digit 1], [JsChar.digit 3]⟩]).1
      = Except.ok [⟨0, 7, 10 ^ 18, 3⟩] := by
    rw [validateAndPrepareOrders, if_neg (by simp [maxBatchSize])]
    simp [hproc']
  have h2 : createBatchOrders envC4 [⟨7, some "sell", [JsChar.digit 1], [JsChar.digit 3]⟩]
      = ({ success := true, txHash := some "0xabc", blockNumber := some 123,
           gasUsed := some 21000, ordersCreated := some 1 }, 0,
         [[⟨0, 7, 10 ^ 18, 3⟩], [⟨1, 7, 10 ^ 18, 3⟩]]) := by
    rw [createBatchOrders_reaches_submit envC4
      [⟨7, some "sell", [JsChar.digit 1], [JsChar.digit 3]⟩] [⟨0, 7, 10 ^ 18, 3⟩]
      rfl rfl rfl rfl hval (by simp)]
    rfl
  refine ⟨rfl, h2, by rw [h2], ?_⟩
  rw [createBatchOrders_reaches_submit envC4sell
    [⟨7, some "sell", [JsChar.digit 1], [JsChar.digit 3]⟩] [⟨0, 7, 10 ^ 18, 3⟩]
    rfl rfl rfl rfl hval' (by simp)]
  rfl

/-! ## Claim C8: dead model validation lets invalid orders through (code bug) -/

/-- Environment of the C8 inputs: balances `{1: 10, 2: 1}` and 5 for
any other token (the oracle answers for whatever id it is asked,
including the invalid id 0). -/
def envC8 : Env :=
  ⟨0, [], true, true, Except.ok (), true, Except.ok (), 3,
    fun t => if t = 1 then Except.ok 10 else if t = 2 then Except.ok 1 else Except.ok 5,
    Except.ok true, Except.ok (), fun _ _ => Except.error "down"⟩

/-- C8: batch preparation does NOT drop every request that fails
validation: token id 0 fails the validator's tokenId rule (min 1), yet
the request survives to a contract order, because `new MarketOrder`'s
subclass validation hook is never invoked (`BaseModel` calls its own
private `#validate`, contradicting the source comment "Create and
validate order model").  The balance-driven half of the claim does
hold, as on the spec's example: requests `[(1,qty5),(2,qty100)]` with
balances `{1:10, 2:1}` keep exactly the first request, in input
order. -/
theorem C8_dead_validation_keeps_invalid_order :
    (validateTokenId [JsChar.digit 0]).isValid = false
    ∧ validateAndPrepareOrders envC8 [⟨0, some "sell", [JsChar.digit 1], [JsChar.digit 1]⟩]
        = (Except.ok [⟨0, 0, 10 ^ 18, 1⟩], [0])
    ∧ validateAndPrepareOrders envC8
        [⟨1, some "sell", [JsChar.digit 1], [JsChar.digit 5]⟩,
         ⟨2, some "sell", [JsChar.digit 1], [JsChar.digit 1, JsChar.digit 0, JsChar.digit 0]⟩]
        = (Except.ok [⟨0, 1, 10 ^ 18, 5⟩], [1, 2]) := by
  have htok : (validateTokenId [JsChar.digit 0]).isValid = false := by decide
  have hq1 : validateInputQuantity [JsChar.digit 1] = ⟨true, some 1, []⟩ := by
    norm_num [validateInputQuantity, maxInputLength, validateQuantity, jsParseInt, jsParseFloat,
      takeDigits, parseSign, parseExp, digitsToNat, quantityRulesMin, quantityRulesMax]
  have hq5 : validateInputQuantity [JsChar.digit 5] = ⟨true, some 5, []⟩ := by
    norm_num [validateInputQuantity, maxInputLength, validateQuantity, jsParseInt, jsParseFloat,
      takeDigits, parseSign, parseExp, digitsToNat, quantityRulesMin, quantityRulesMax]
  have hq100 : validateInputQuantity [JsChar.digit 1, JsChar.digit 0, JsChar.digit 0]
      = ⟨true, some 100, []⟩ := by
    norm_num [validateInputQuantity, maxInputLength, validateQuantity, jsParseInt, jsParseFloat,
      takeDigits, parseSign, parseExp, digitsToNat, quantityRulesMin, quantityRulesMax]
  have hproc0 : processRequest envC8 ⟨0, some "sell", [JsChar.digit 1], [JsChar.digit 1]⟩
      = some ⟨0, 0, 10 ^ 18, 1⟩ := by
    have := processRequest_eval envC8 ⟨0, some "sell", [JsChar.digit 1], [JsChar.digit 1]⟩
      5 1 (10 ^ 18) 1 rfl hq1 (by norm_num) (by decide) (by decide) (by decide)
    simpa using this
  have hproc1 : processRequest envC8 ⟨1, some "sell", [JsChar.digit 1], [JsChar.digit 5]⟩
      = some ⟨0, 1, 10 ^ 18, 5⟩ := by
    have := processRequest_eval envC8 ⟨1, some "sell", [JsChar.digit 1], [JsChar.digit 5]⟩
      10 5 (10 ^ 18) 5 rfl hq5 (by norm_num) (by decide) (by decide) (by decide)
    simpa using this
  have hproc2 : processRequest envC8
      ⟨2, some "sell", [JsChar.digit 1], [JsChar.digit 1, JsChar.digit 0, JsChar.digit 0]⟩
      = none :=
    processRequest_insufficient envC8
      ⟨2, some "sell", [JsChar.digit 1], [JsChar.digit 1, JsChar.digit 0, JsChar.digit 0]⟩
      1 100 rfl hq100 (by norm_num)
  refine ⟨htok, ?_, ?_⟩
  · rw [validateAndPrepareOrders, if_neg (by simp [maxBatchSize])]
    simp [hproc0]
  · rw [validateAndPrepareOrders, if_neg (by simp [maxBatchSize])]
    simp [hproc1, hproc2]

end Estfor
